import Mathlib

/-!
# A shallow embedding of the `rusty_skelform_macroquad` runtime

This file embeds the public functions of `src/lib.rs` — `load_skelform_armature`,
`animate`, `draw_props` and `create_mesh` — as executable Lean definitions, and
proves properties of them.

Modelling conventions:
* `f32` values are modelled as `ℚ` (the claims under study are about which
  values flow where, not about floating-point rounding).
* Functions that can panic (`unwrap`, slice indexing) return `Option`, with
  `none` standing for a panic.
* `std::time::Instant` is modelled as a rational elapsed time.
* The functions of the external `rusty_skelform` crate that `lib.rs` calls
  (`get_frame_by_time`, `rusty_skelform::animate`, `inheritance`,
  `inverse_kinematics`) are not part of this repository; the embedding is
  parameterised over them by an `ExternalFns` record.  `&mut` parameters are
  modelled by returning the post-state alongside the return value.
-/

namespace RSkel

/-- 2-component vector, modelling both `skelform` and macroquad `Vec2`. -/
structure Vec2 where
  x : ℚ
  y : ℚ
deriving DecidableEq, Repr

/-- Animated element tags of `rusty_skelform::AnimElement`; only `Rotation`
is inspected by `lib.rs`. -/
inductive AnimElement where
  | Position
  | Rotation
  | Scale
  | Alpha
  | Zindex
  | TextureIndex
  | IkToggle
deriving DecidableEq, Repr

/-- A keyframe: bone reference, animated element tag, frame index, value. -/
structure Keyframe where
  bone_id : Nat
  element : AnimElement
  frame : Int
  value : ℚ
deriving DecidableEq, Repr

/-- An animation: a named keyframe sequence with a frame rate. -/
structure Animation where
  name : String
  fps : ℚ
  keyframes : List Keyframe
deriving DecidableEq, Repr

/-- A mesh vertex of the armature asset: local position and normalized UV. -/
structure Vertex where
  pos : Vec2
  uv : Vec2
deriving DecidableEq, Repr

/-- A bone of the armature, with the fields `lib.rs` touches. -/
structure Bone where
  id : Nat
  parent_id : Int
  pos : Vec2
  rot : ℚ
  scale : Vec2
  zindex : ℚ
  tex_idx : Int
  style_idxs : List Nat
  vertices : List Vertex
  indices : List Nat
deriving DecidableEq, Repr

/-- A texture region inside the shared atlas (pixel offset and size). -/
structure Texture where
  offset : Vec2
  size : Vec2
deriving DecidableEq, Repr

/-- A style (skin): a sequence of atlas texture regions. -/
structure Style where
  textures : List Texture
deriving DecidableEq, Repr

/-- An inverse-kinematics chain: ordered bone indices plus a target. -/
structure IkFamily where
  bone_ids : List Nat
  target_id : Int
  invert : Bool
deriving DecidableEq, Repr

/-- The armature: bones, animations, IK chains and styles. -/
structure Armature where
  bones : List Bone
  animations : List Animation
  ik_families : List IkFamily
  styles : List Style
deriving DecidableEq, Repr

/-- `Armature::default()`: every sequence empty. -/
def Armature.default : Armature :=
  { bones := [], animations := [], ik_families := [], styles := [] }

/-- Macroquad `Texture2D`, reduced to what `lib.rs` reads from it: its size. -/
structure Texture2D where
  size : Vec2
deriving DecidableEq, Repr

/-- `Texture2D::empty()`. -/
def Texture2D.empty : Texture2D :=
  { size := ⟨0, 0⟩ }

/-- Macroquad RGBA color. -/
structure Color where
  r : Nat
  g : Nat
  b : Nat
  a : Nat
deriving DecidableEq, Repr

/-- `Color::from_rgba(255, 255, 255, 255)` / `WHITE`. -/
def Color.white : Color :=
  { r := 255, g := 255, b := 255, a := 255 }

/-- Macroquad mesh vertex: position, UV, color. -/
structure MVertex where
  x : ℚ
  y : ℚ
  z : ℚ
  u : ℚ
  v : ℚ
  color : Color
deriving DecidableEq, Repr

/-- Macroquad `Mesh`. -/
structure Mesh where
  vertices : List MVertex
  indices : List Nat
  texture : Option Texture2D
deriving DecidableEq, Repr

/-- Macroquad `Rect` (the `source` sub-rectangle of a texture draw). -/
structure MRect where
  x : ℚ
  y : ℚ
  w : ℚ
  h : ℚ
deriving DecidableEq, Repr

/-- One host draw call issued by `draw_props`: either an indexed-mesh draw or
a textured-quad draw (destination corner, color, atlas source rectangle,
destination size, rotation). -/
inductive DrawCall where
  | meshDraw (m : Mesh)
  | rectDraw (x y : ℚ) (color : Color) (src : MRect) (dest : Vec2) (rotation : ℚ)
deriving DecidableEq, Repr

/-- `AnimOptions` from `lib.rs`. -/
structure AnimOptions where
  speed : ℚ
  pos_offset : Vec2
  scale_factor : ℚ
  frame : Option Int
  last_anim_idx : Nat
  last_anim_frame : Int
deriving DecidableEq, Repr

/-- `usize::MAX` (64-bit target). -/
def usizeMax : Nat := 2 ^ 64 - 1

/-- `AnimOptions::default()`. -/
def AnimOptions.default : AnimOptions :=
  { speed := 1
    pos_offset := ⟨0, 0⟩
    scale_factor := 1 / 4
    frame := none
    last_anim_idx := usizeMax
    last_anim_frame := 0 }

/-- `i as usize` for a (possibly negative) integer on a 64-bit target. -/
def usizeOfInt (i : Int) : Nat :=
  (i % (2 : Int) ^ 64).toNat

/-- The functions of the external `rusty_skelform` crate used by `lib.rs`.
Their bodies live outside this repository, so the embedding takes them as
parameters.  `skAnimate` models `rusty_skelform::animate`, which takes the
armature by `&mut` and returns the sampled props; its post-state armature is
returned alongside. -/
structure ExternalFns where
  getFrameByTime : Animation → ℚ → ℚ → Int
  skAnimate : Armature → Nat → Int → Bool → List Bone × Armature
  inheritance : List Bone → List (Nat × ℚ) → List Bone
  inverseKinematics : List Bone → List IkFamily → List (Nat × ℚ)

/-- The per-bone part of the "fix Macroquad-specific quirks" block of
`animate`: `bone.pos.y = -bone.pos.y; bone.rot = -bone.rot;`. -/
def boneFix (b : Bone) : Bone :=
  { b with pos := ⟨b.pos.x, -b.pos.y⟩, rot := -b.rot }

/-- The per-keyframe part of the quirks block: rotation keyframe values are
negated, all other keyframes are left alone. -/
def keyframeFix (kf : Keyframe) : Keyframe :=
  if kf.element = AnimElement.Rotation then { kf with value := -kf.value } else kf

/-- The whole "fix Macroquad-specific quirks" block of `animate`, applied to
the per-call working clone of the armature. -/
def macroquadFix (a : Armature) : Armature :=
  { a with
    bones := a.bones.map boneFix
    animations := a.animations.map fun anim =>
      { anim with keyframes := anim.keyframes.map keyframeFix } }

/-- The option-defaulting prelude of `animate`: a missing `AnimOptions` is
replaced by the default, and if neither a time nor an explicit frame was
provided the frame defaults to `Some(0)`. -/
def effectiveOptions (time : Option ℚ) (options0 : Option AnimOptions) : AnimOptions :=
  let options := options0.getD AnimOptions.default
  if time = none ∧ options.frame = none then { options with frame := some 0 } else options

/-- The keyframe-sampling step of `animate` (lines 161–173 of `lib.rs`):
props start as the working clone's bones and frame as 0; only when
`animations.len() != 0 && animation_index < animations.len() - 1` is the
animation sampled.  Returns the sampled props, the post-state working
armature and the frame; `none` models a panic (`time.unwrap()` or an
out-of-bounds animation index). -/
def sampleStep (ext : ExternalFns) (armature : Armature) (animation_index : Nat)
    (time : Option ℚ) (options : AnimOptions) (should_loop : Bool) :
    Option (List Bone × Armature × Int) :=
  let new_armature := macroquadFix armature
  if armature.animations.length ≠ 0 ∧
      animation_index < armature.animations.length - 1 then
    match new_armature.animations[animation_index]? with
    | none => none
    | some anim =>
      let frameOpt : Option Int :=
        match options.frame with
        | none => time.map fun t => ext.getFrameByTime anim t options.speed
        | some f => some f
      match frameOpt with
      | none => none
      | some frame =>
        let pr := ext.skAnimate new_armature animation_index frame should_loop
        some (pr.1, pr.2, frame)
  else
    some (new_armature.bones, new_armature, 0)

/-- The inheritance / inverse-kinematics composition of `animate`
(lines 175–178 of `lib.rs`). -/
def composeProps (ext : ExternalFns) (ik_families : List IkFamily)
    (props : List Bone) : List Bone :=
  let og_props := ext.inheritance props []
  let ik_rots := ext.inverseKinematics og_props ik_families
  ext.inheritance props ik_rots

/-- The option post-processing of `animate` (lines 180–185 of `lib.rs`):
`scale *= scale_factor; pos *= scale_factor; pos += pos_offset`. -/
def applyOptions (options : AnimOptions) (props : List Bone) : List Bone :=
  props.map fun p =>
    { p with
      scale := ⟨p.scale.x * options.scale_factor, p.scale.y * options.scale_factor⟩
      pos := ⟨p.pos.x * options.scale_factor + options.pos_offset.x,
              p.pos.y * options.scale_factor + options.pos_offset.y⟩ }

/-- `create_mesh` from `lib.rs`.  Indices are cast `as u16`; each asset
vertex becomes a macroquad vertex whose UV is the authored `v.uv` verbatim
(the `lt_tex_*` / `rb_tex_*` sub-rectangle bounds are computed by the source
but never used; they are reproduced here as dead bindings, faithfully). -/
def create_mesh (bone : Bone) (bone_tex : Texture) (tex2d : Texture2D) : Mesh :=
  let indices := bone.indices.map fun i => i % 2 ^ 16
  let vertices := bone.vertices.map fun v =>
    let lt_tex_x := bone_tex.offset.x / tex2d.size.x
    let lt_tex_y := bone_tex.offset.y / tex2d.size.y
    let rb_tex_x := (bone_tex.offset.x + bone_tex.size.x) / tex2d.size.x
    let rb_tex_y := (bone_tex.offset.y + bone_tex.size.y) / tex2d.size.y
    { x := bone.pos.x + ((v.pos.x - bone_tex.size.x / 2) * bone.scale.x / 2)
      y := bone.pos.y + ((-v.pos.y - bone_tex.size.y / 2) * bone.scale.y / 2)
      z := 0
      u := v.uv.x
      v := v.uv.y
      color := Color.white : MVertex }
  { vertices := vertices, indices := indices, texture := some tex2d }

/-- `draw_props` from `lib.rs`, as the list of draw calls it issues; `none`
models a panic.  A prop with an empty `style_idxs` is skipped; otherwise
`armature.styles[0].textures[tex_idx as usize]` is indexed (panicking when
out of bounds), and the prop is drawn as a mesh when it has vertices, as a
rotated textured rectangle otherwise. -/
def draw_props (props : List Bone) (armature : Armature) (tex : Texture2D) :
    Option (List DrawCall) :=
  match props with
  | [] => some []
  | p :: rest =>
    if p.style_idxs.length = 0 then
      draw_props rest armature tex
    else
      match armature.styles[0]? with
      | none => none
      | some style0 =>
        match style0.textures[usizeOfInt p.tex_idx]? with
        | none => none
        | some prop_tex =>
          let call :=
            if p.vertices.length > 0 then
              DrawCall.meshDraw (create_mesh p prop_tex tex)
            else
              let push_center : Vec2 :=
                ⟨prop_tex.size.x / 2 * p.scale.x, prop_tex.size.y / 2 * p.scale.y⟩
              DrawCall.rectDraw (p.pos.x - push_center.x) (p.pos.y - push_center.y)
                Color.white
                ⟨prop_tex.offset.x, prop_tex.offset.y, prop_tex.size.x, prop_tex.size.y⟩
                ⟨prop_tex.size.x * p.scale.x, prop_tex.size.y * p.scale.y⟩
                p.rot
          (draw_props rest armature tex).map fun cs => call :: cs

/-- `animate` from `lib.rs`.  Returns the post-state of the `&mut armature`
argument, the props and the frame; `none` models a panic (in sampling or,
when `should_render` is set, inside `draw_props`). -/
def animate (ext : ExternalFns) (armature : Armature) (texture : Texture2D)
    (animation_index : Nat) (time : Option ℚ) (should_loop : Bool)
    (should_render : Bool) (options0 : Option AnimOptions) :
    Option (Armature × List Bone × Int) :=
  let options := effectiveOptions time options0
  match sampleStep ext armature animation_index time options should_loop with
  | none => none
  | some (props0, new_armature, frame) =>
    let props := applyOptions options (composeProps ext armature.ik_families props0)
    if should_render then
      match draw_props props new_armature texture with
      | none => none
      | some _ => some (armature, props, frame)
    else
      some (armature, props, frame)

/-- The environment of `load_skelform_armature`: `std::fs::exists` (whose
`Result` can itself be an I/O error, modelled by `none`), and the rest of
the loading pipeline (file open, zip extraction, JSON parsing, texture
decoding — all external library calls), taken abstractly. -/
structure LoadEnv where
  fsExists : String → Option Bool
  loadFromZip : String → Option (Armature × Texture2D)

/-- `load_skelform_armature` from `lib.rs`: if the file does not exist, the
default (empty) armature and an empty texture are returned; otherwise the
zip-loading pipeline runs. -/
def load_skelform_armature (env : LoadEnv) (zip_path : String) :
    Option (Armature × Texture2D) :=
  match env.fsExists zip_path with
  | none => none
  | some false => some (Armature.default, Texture2D.empty)
  | some true => env.loadFromZip zip_path

/-! ## Fixtures: concrete instantiations used by the witnesses -/

/-- A concrete instantiation of the external `rusty_skelform` functions, used
to evaluate the embedding on closed inputs. -/
def extId : ExternalFns :=
  { getFrameByTime := fun _ _ _ => 0
    skAnimate := fun a _ _ _ => (a.bones, a)
    inheritance := fun props _ => props
    inverseKinematics := fun _ _ => [] }

/-- A second concrete instantiation, differing from `extId` only in
`getFrameByTime`. -/
def extAlt : ExternalFns :=
  { getFrameByTime := fun _ _ _ => 42
    skAnimate := fun a _ _ _ => (a.bones, a)
    inheritance := fun props _ => props
    inverseKinematics := fun _ _ => [] }

/-- A concrete bone (no texture binding, no mesh). -/
def wBone : Bone :=
  { id := 0, parent_id := -1, pos := ⟨2, 3⟩, rot := 5, scale := ⟨1, 1⟩,
    zindex := 0, tex_idx := 0, style_idxs := [], vertices := [], indices := [] }

/-- A concrete animation with one rotation and one alpha keyframe. -/
def wAnim : Animation :=
  { name := "walk", fps := 24,
    keyframes :=
      [ { bone_id := 0, element := AnimElement.Rotation, frame := 0, value := 7 },
        { bone_id := 0, element := AnimElement.Alpha, frame := 2, value := 1 } ] }

/-- A concrete armature with one bone and one animation. -/
def wArm1 : Armature :=
  { bones := [wBone], animations := [wAnim], ik_families := [], styles := [] }

/-- A concrete armature with one bone and two animations. -/
def wArm2 : Armature :=
  { bones := [wBone], animations := [wAnim, { wAnim with name := "run" }],
    ik_families := [], styles := [] }

/-- A bone with a nonempty `style_idxs` but no mesh, whose texture resolution
fails against an armature with an empty `styles` list. -/
def noStyleBone : Bone :=
  { id := 1, parent_id := -1, pos := ⟨0, 0⟩, rot := 0, scale := ⟨1, 1⟩,
    zindex := 0, tex_idx := 0, style_idxs := [0], vertices := [], indices := [] }

/-- An armature with no animations, no styles, and a single bone whose
`style_idxs` is nonempty. -/
def noStyleArm : Armature :=
  { bones := [noStyleBone], animations := [], ik_families := [], styles := [] }

/-- The result of a concrete successful `animate` call on `wArm1`. -/
def wRes1 : Armature × List Bone × Int :=
  (animate extId wArm1 Texture2D.empty 0 none true false none).getD
    (Armature.default, [], 0)

/-- The result of a concrete successful `animate` call on `wArm2`, sampling
animation 0 at the explicit frame 9. -/
def wOpts9 : AnimOptions :=
  { AnimOptions.default with frame := some 9 }

/-- Concrete result for the explicit-frame run. -/
def wRes2 : Armature × List Bone × Int :=
  (animate extId wArm2 Texture2D.empty 0 none true false (some wOpts9)).getD
    (Armature.default, [], 0)

/-- A loading environment in which no file exists. -/
def wEnv : LoadEnv :=
  { fsExists := fun _ => some false, loadFromZip := fun _ => none }

/-- A style with an empty texture list (texture index resolution fails). -/
def smallStyle : Style :=
  { textures := [] }

/-- An armature whose first style has no textures. -/
def smallStyleArm : Armature :=
  { bones := [], animations := [], ik_families := [], styles := [smallStyle] }

/-- Options equal to the default except in the two blend-bookkeeping
fields `last_anim_idx` / `last_anim_frame`. -/
def wOptsA : AnimOptions :=
  { AnimOptions.default with last_anim_idx := 0, last_anim_frame := -1 }

/-- A mesh vertex authored with normalized UV `(1/2, 1/2)`. -/
def meshVert : Vertex :=
  { pos := ⟨0, 0⟩, uv := ⟨1 / 2, 1 / 2⟩ }

/-- A meshed bone holding `meshVert`. -/
def meshBone : Bone :=
  { id := 2, parent_id := -1, pos := ⟨0, 0⟩, rot := 0, scale := ⟨1, 1⟩,
    zindex := 0, tex_idx := 0, style_idxs := [0], vertices := [meshVert],
    indices := [0] }

/-- A `64 × 64` texture sub-rectangle at the atlas origin. -/
def meshTex : Texture :=
  { offset := ⟨0, 0⟩, size := ⟨64, 64⟩ }

/-- A `128 × 128` atlas texture. -/
def atlasTex : Texture2D :=
  { size := ⟨128, 128⟩ }

/-- The UV mapping the spec requires of the mesh path, stated from the
spec's words: map each authored vertex's normalized UV into the selected
atlas sub-rectangle's normalized space, `uv' = lt + uv * (rb - lt)` per
axis, where `lt`/`rb` are the sub-rectangle's corners in `[0,1]`
atlas-relative coordinates. -/
def specAtlasUV (bone_tex : Texture) (tex2d : Texture2D) (uv : Vec2) : Vec2 :=
  let lt : Vec2 := ⟨bone_tex.offset.x / tex2d.size.x, bone_tex.offset.y / tex2d.size.y⟩
  let rb : Vec2 := ⟨(bone_tex.offset.x + bone_tex.size.x) / tex2d.size.x,
                    (bone_tex.offset.y + bone_tex.size.y) / tex2d.size.y⟩
  ⟨lt.x + uv.x * (rb.x - lt.x), lt.y + uv.y * (rb.y - lt.y)⟩

/-! ## Helper lemmas -/

/-- Shape of any successful `animate` call: the post-state armature is the
input armature, and the props are the sampled props fed through
`composeProps` and `applyOptions`. -/
theorem animate_some_shape (ext : ExternalFns) (a : Armature) (tex : Texture2D)
    (idx : Nat) (time : Option ℚ) (sl sr : Bool) (o0 : Option AnimOptions)
    (r : Armature × List Bone × Int)
    (h : animate ext a tex idx time sl sr o0 = some r) :
    ∃ p0 na fr,
      sampleStep ext a idx time (effectiveOptions time o0) sl = some (p0, na, fr) ∧
      r = (a, applyOptions (effectiveOptions time o0)
            (composeProps ext a.ik_families p0), fr) := by
  simp only [animate] at h
  cases hs : sampleStep ext a idx time (effectiveOptions time o0) sl with
  | none => rw [hs] at h; cases h
  | some t =>
    obtain ⟨p0, na, fr⟩ := t
    rw [hs] at h
    refine ⟨p0, na, fr, rfl, ?_⟩
    cases sr with
    | false =>
      simp only [Bool.false_eq_true, if_false, Option.some.injEq] at h
      exact h.symm
    | true =>
      simp only [if_true] at h
      cases hd : draw_props
          (applyOptions (effectiveOptions time o0) (composeProps ext a.ik_families p0))
          na tex with
      | none => rw [hd] at h; cases h
      | some cs =>
        rw [hd] at h
        simp only [Option.some.injEq] at h
        exact h.symm

/-- When the sampling guard fails, `sampleStep` returns the working clone's
bones unchanged with frame 0. -/
theorem sampleStep_no_sampling (ext : ExternalFns) (a : Armature) (idx : Nat)
    (time : Option ℚ) (o : AnimOptions) (sl : Bool)
    (h : ¬(a.animations.length ≠ 0 ∧ idx < a.animations.length - 1)) :
    sampleStep ext a idx time o sl =
      some ((macroquadFix a).bones, macroquadFix a, 0) := by
  unfold sampleStep
  rw [if_neg h]

/-- When the sampling guard holds and an explicit frame is supplied,
`sampleStep` samples `rusty_skelform::animate` at exactly that frame. -/
theorem sampleStep_explicit_frame (ext : ExternalFns) (a : Armature) (idx : Nat)
    (time : Option ℚ) (o : AnimOptions) (sl : Bool) (f : Int)
    (hf : o.frame = some f)
    (hg : a.animations.length ≠ 0 ∧ idx < a.animations.length - 1) :
    sampleStep ext a idx time o sl =
      some ((ext.skAnimate (macroquadFix a) idx f sl).1,
            (ext.skAnimate (macroquadFix a) idx f sl).2, f) := by
  have hlen : idx < (macroquadFix a).animations.length := by
    simp only [macroquadFix, List.length_map]
    omega
  unfold sampleStep
  rw [if_pos hg, List.getElem?_eq_getElem hlen, hf]

/-- `effectiveOptions` only ever touches the `frame` field. -/
theorem effectiveOptions_fields (time : Option ℚ) (o0 : Option AnimOptions) :
    (effectiveOptions time o0).speed = (o0.getD AnimOptions.default).speed ∧
    (effectiveOptions time o0).pos_offset = (o0.getD AnimOptions.default).pos_offset ∧
    (effectiveOptions time o0).scale_factor = (o0.getD AnimOptions.default).scale_factor := by
  simp only [effectiveOptions]
  split <;> exact ⟨rfl, rfl, rfl⟩

/-- An explicitly supplied frame survives `effectiveOptions`. -/
theorem effectiveOptions_frame_some (time : Option ℚ) (o : AnimOptions) (f : Int)
    (hf : o.frame = some f) :
    effectiveOptions time (some o) = o := by
  unfold effectiveOptions
  rw [if_neg]
  · rfl
  · rintro ⟨-, hn⟩
    rw [Option.getD_some] at hn
    rw [hf] at hn
    cases hn

/-! ## Claim theorems -/

/-- C3: `animate` never mutates the caller's armature: on any successful
call the post-state of the `&mut armature` argument has every bone (hence
every authored position, rotation, scale and mesh), every animation (hence
every keyframe), every IK family and every style equal to its value before
the call — all pose computation happens on the per-call clone
`macroquadFix armature`. -/
theorem animate_preserves_input_armature (ext : ExternalFns) (a : Armature)
    (tex : Texture2D) (idx : Nat) (time : Option ℚ) (sl sr : Bool)
    (o0 : Option AnimOptions) (a' : Armature) (props : List Bone) (fr : Int)
    (h : animate ext a tex idx time sl sr o0 = some (a', props, fr)) :
    a'.bones = a.bones ∧ a'.animations = a.animations ∧
    a'.ik_families = a.ik_families ∧ a'.styles = a.styles := by
  obtain ⟨p0, na, fr', hs, hr⟩ :=
    animate_some_shape ext a tex idx time sl sr o0 (a', props, fr) h
  simp only [Prod.mk.injEq] at hr
  obtain ⟨rfl, -, -⟩ := hr
  exact ⟨rfl, rfl, rfl, rfl⟩

/-- Witness for C3: a concrete successful `animate` call leaves the concrete
armature untouched. -/
theorem animate_preserves_input_armature_witness :
    wRes1.1.bones = wArm1.bones ∧ wRes1.1.animations = wArm1.animations ∧
    wRes1.1.ik_families = wArm1.ik_families ∧ wRes1.1.styles = wArm1.styles :=
  animate_preserves_input_armature extId wArm1 Texture2D.empty 0 none true false
    none wRes1.1 wRes1.2.1 wRes1.2.2 rfl

/-- C1: for an armature with at least one animation, calling `animate` with
`animation_index = animations.len() - 1` (the last valid index) performs no
keyframe sampling: the guard `animation_index < len - 1` skips the final
animation, so whenever the call returns, the returned props are the
coordinate-adapted rest pose (`(macroquadFix a).bones`, no keyframe applied)
fed through the inheritance/IK/option pipeline, and the returned frame is 0. -/
theorem animate_last_index_skips_sampling (ext : ExternalFns) (a : Armature)
    (tex : Texture2D) (time : Option ℚ) (sl sr : Bool) (o0 : Option AnimOptions)
    (h1 : 1 ≤ a.animations.length) (r : Armature × List Bone × Int)
    (h : animate ext a tex (a.animations.length - 1) time sl sr o0 = some r) :
    r.2.1 = applyOptions (effectiveOptions time o0)
        (composeProps ext a.ik_families (macroquadFix a).bones) ∧
    r.2.2 = 0 := by
  obtain ⟨p0, na, fr, hs, hr⟩ :=
    animate_some_shape ext a tex (a.animations.length - 1) time sl sr o0 r h
  have hng : ¬(a.animations.length ≠ 0 ∧
      a.animations.length - 1 < a.animations.length - 1) := by
    rintro ⟨-, hlt⟩
    exact lt_irrefl _ hlt
  rw [sampleStep_no_sampling ext a (a.animations.length - 1) time
      (effectiveOptions time o0) sl hng] at hs
  simp only [Option.some.injEq, Prod.mk.injEq] at hs
  obtain ⟨hp, -, hf⟩ := hs
  subst hr
  exact ⟨by rw [hp], hf.symm⟩

/-- Witness for C1: one animation, index 0 = len − 1; the call returns the
pipelined rest pose and frame 0. -/
theorem animate_last_index_skips_sampling_witness :
    1 ≤ wArm1.animations.length ∧
    (wRes1.2.1 = applyOptions (effectiveOptions none none)
        (composeProps extId wArm1.ik_families (macroquadFix wArm1).bones) ∧
     wRes1.2.2 = 0) :=
  ⟨by decide,
   animate_last_index_skips_sampling extId wArm1 Texture2D.empty none true false
     none (by decide) wRes1 rfl⟩

/-- C2 counterexample: an out-of-range animation index does not make
`animate` panic-free.  Here `animation_index = 0 ≥ 0 = animations.len()`,
but `should_render` is set and the single prop has a nonempty `style_idxs`
while the armature's styles list is empty, so `draw_props` indexes
`styles[0]` out of bounds: the call panics (`none`) instead of returning the
rest-pose props. -/
theorem animate_oob_render_counterexample :
    animate extId noStyleArm Texture2D.empty 0 none true true none = none := by
  decide

/-- C2 (amended): for every `animation_index ≥ animations.len()` (including
zero animations) the sampling step no-ops and performs no out-of-bounds
animation access: with rendering off, `animate` returns — without panicking
— the coordinate-adapted rest-pose props (fed through the pipeline) and
frame 0; and any call that returns (rendering on or off) returns exactly
that value.  Only the `should_render` drawing path can still panic, on
texture-resolution failure. -/
theorem animate_oob_noop (ext : ExternalFns) (a : Armature) (tex : Texture2D)
    (idx : Nat) (time : Option ℚ) (sl : Bool) (o0 : Option AnimOptions)
    (h : a.animations.length ≤ idx) :
    animate ext a tex idx time sl false o0 =
      some (a, applyOptions (effectiveOptions time o0)
        (composeProps ext a.ik_families (macroquadFix a).bones), 0) ∧
    ∀ (sr : Bool) (r : Armature × List Bone × Int),
      animate ext a tex idx time sl sr o0 = some r →
      r = (a, applyOptions (effectiveOptions time o0)
        (composeProps ext a.ik_families (macroquadFix a).bones), 0) := by
  have hng : ¬(a.animations.length ≠ 0 ∧ idx < a.animations.length - 1) := by
    rintro ⟨h0, hlt⟩
    omega
  constructor
  · simp only [animate]
    rw [sampleStep_no_sampling ext a idx time (effectiveOptions time o0) sl hng]
    rfl
  · intro sr r hr
    obtain ⟨p0, na, fr, hs, hr'⟩ :=
      animate_some_shape ext a tex idx time sl sr o0 r hr
    rw [sampleStep_no_sampling ext a idx time (effectiveOptions time o0) sl hng] at hs
    simp only [Option.some.injEq, Prod.mk.injEq] at hs
    obtain ⟨hp, -, hf⟩ := hs
    rw [hr', ← hp, ← hf]

/-- Witness for C2 (amended): a concrete out-of-range index on a concrete
armature, rendering off. -/
theorem animate_oob_noop_witness :
    animate extId wArm1 Texture2D.empty 5 none true false none =
      some (wArm1, applyOptions (effectiveOptions none none)
        (composeProps extId wArm1.ik_families (macroquadFix wArm1).bones), 0) :=
  (animate_oob_noop extId wArm1 Texture2D.empty 5 none true none (by decide)).1

/-- `effectiveOptions` on an explicitly supplied options record keeps its
`pos_offset` and `scale_factor`. -/
theorem effectiveOptions_some_fields (time : Option ℚ) (o : AnimOptions) :
    (effectiveOptions time (some o)).pos_offset = o.pos_offset ∧
    (effectiveOptions time (some o)).scale_factor = o.scale_factor := by
  simp only [effectiveOptions, Option.getD_some]
  split <;> exact ⟨rfl, rfl⟩

/-- Pointwise characterisation of `applyOptions`. -/
theorem applyOptions_getElem (o : AnimOptions) (l : List Bone) (i : Nat)
    (hi : i < (applyOptions o l).length) (hc : i < l.length) :
    (applyOptions o l)[i].scale.x = l[i].scale.x * o.scale_factor ∧
    (applyOptions o l)[i].scale.y = l[i].scale.y * o.scale_factor ∧
    (applyOptions o l)[i].pos.x = l[i].pos.x * o.scale_factor + o.pos_offset.x ∧
    (applyOptions o l)[i].pos.y = l[i].pos.y * o.scale_factor + o.pos_offset.y := by
  simp [applyOptions, List.getElem_map]

/-- C4: the working clone on which `animate` does all further work is, by
definition, `macroquadFix armature` (see `sampleStep` and `animate`), and
`macroquadFix` applies the coordinate-convention flip exactly once — every
bone's position y-coordinate is negated and its live rotation is negated
(x-coordinate, scale and every other bone field unchanged); the value of
every keyframe whose element is `Rotation` is negated and every other
keyframe is left entirely unchanged; IK families and styles are untouched. -/
theorem macroquadFix_flip (a : Armature) (b : Bone) (kf : Keyframe) :
    (macroquadFix a).bones = a.bones.map boneFix ∧
    (macroquadFix a).animations = a.animations.map
      (fun anim => { anim with keyframes := anim.keyframes.map keyframeFix }) ∧
    (macroquadFix a).ik_families = a.ik_families ∧
    (macroquadFix a).styles = a.styles ∧
    (boneFix b).pos.y = -b.pos.y ∧
    (boneFix b).pos.x = b.pos.x ∧
    (boneFix b).rot = -b.rot ∧
    (boneFix b).scale = b.scale ∧
    (boneFix b).zindex = b.zindex ∧
    (boneFix b).tex_idx = b.tex_idx ∧
    (boneFix b).style_idxs = b.style_idxs ∧
    (boneFix b).vertices = b.vertices ∧
    (boneFix b).indices = b.indices ∧
    keyframeFix kf =
      (if kf.element = AnimElement.Rotation
       then { kf with value := -kf.value } else kf) ∧
    (keyframeFix kf).bone_id = kf.bone_id ∧
    (keyframeFix kf).element = kf.element ∧
    (keyframeFix kf).frame = kf.frame := by
  refine ⟨rfl, rfl, rfl, rfl, rfl, rfl, rfl, rfl, rfl, rfl, rfl, rfl, rfl, rfl,
    ?_, ?_, ?_⟩ <;>
  · unfold keyframeFix
    split <;> rfl

/-- C5: on any successful `animate` call, the returned props are exactly
the composed pose — `composeProps` (inheritance + IK) applied to the props
`p0` actually produced by the sampling step, as pinned by the `sampleStep`
equation — passed through `applyOptions`: each prop's final scale is the
composed scale multiplied by `options.scale_factor` (both components), and
its final position is the composed position multiplied by
`options.scale_factor` plus `options.pos_offset` — scale applied
multiplicatively first, then the offset additively. -/
theorem animate_scale_offset (ext : ExternalFns) (a : Armature)
    (tex : Texture2D) (idx : Nat) (time : Option ℚ) (sl sr : Bool)
    (o : AnimOptions) (a' : Armature) (props : List Bone) (fr : Int)
    (h : animate ext a tex idx time sl sr (some o) = some (a', props, fr)) :
    ∃ p0 na,
      sampleStep ext a idx time (effectiveOptions time (some o)) sl =
        some (p0, na, fr) ∧
      props = applyOptions (effectiveOptions time (some o))
        (composeProps ext a.ik_families p0) ∧
      props.length = (composeProps ext a.ik_families p0).length ∧
      ∀ i (hi : i < props.length)
        (hc : i < (composeProps ext a.ik_families p0).length),
        props[i].scale.x =
          (composeProps ext a.ik_families p0)[i].scale.x * o.scale_factor ∧
        props[i].scale.y =
          (composeProps ext a.ik_families p0)[i].scale.y * o.scale_factor ∧
        props[i].pos.x =
          (composeProps ext a.ik_families p0)[i].pos.x * o.scale_factor +
            o.pos_offset.x ∧
        props[i].pos.y =
          (composeProps ext a.ik_families p0)[i].pos.y * o.scale_factor +
            o.pos_offset.y := by
  obtain ⟨p0, na, fr', hs, hr⟩ :=
    animate_some_shape ext a tex idx time sl sr (some o) (a', props, fr) h
  simp only [Prod.mk.injEq] at hr
  obtain ⟨-, hp, hfr⟩ := hr
  subst hfr
  obtain ⟨hoff, hsf⟩ := effectiveOptions_some_fields time o
  refine ⟨p0, na, hs, hp, ?_, ?_⟩
  · rw [hp]
    exact List.length_map _ _
  · intro i hi hc
    have hi' : i < (applyOptions (effectiveOptions time (some o))
        (composeProps ext a.ik_families p0)).length := by
      rw [← hp]; exact hi
    have h4 := applyOptions_getElem (effectiveOptions time (some o))
      (composeProps ext a.ik_families p0) i hi' hc
    rw [hoff, hsf] at h4
    have hpe : ∀ (hj : i < props.length),
        props[i] = (applyOptions (effectiveOptions time (some o))
          (composeProps ext a.ik_families p0))[i] := by
      intro hj
      congr 1
    exact hpe hi ▸ h4

/-- Witness for C5 at a concrete successful call (explicit frame 9,
sampling animation 0 of a two-animation armature). -/
theorem animate_scale_offset_witness :
    ∃ p0 na,
      sampleStep extId wArm2 0 none (effectiveOptions none (some wOpts9)) true =
        some (p0, na, wRes2.2.2) ∧
      wRes2.2.1 = applyOptions (effectiveOptions none (some wOpts9))
        (composeProps extId wArm2.ik_families p0) ∧
      wRes2.2.1.length = (composeProps extId wArm2.ik_families p0).length ∧
      ∀ i (hi : i < wRes2.2.1.length)
        (hc : i < (composeProps extId wArm2.ik_families p0).length),
        wRes2.2.1[i].scale.x =
          (composeProps extId wArm2.ik_families p0)[i].scale.x * wOpts9.scale_factor ∧
        wRes2.2.1[i].scale.y =
          (composeProps extId wArm2.ik_families p0)[i].scale.y * wOpts9.scale_factor ∧
        wRes2.2.1[i].pos.x =
          (composeProps extId wArm2.ik_families p0)[i].pos.x * wOpts9.scale_factor +
            wOpts9.pos_offset.x ∧
        wRes2.2.1[i].pos.y =
          (composeProps extId wArm2.ik_families p0)[i].pos.y * wOpts9.scale_factor +
            wOpts9.pos_offset.y :=
  animate_scale_offset extId wArm2 Texture2D.empty 0 none true false wOpts9
    wRes2.1 wRes2.2.1 wRes2.2.2 rfl

/-- C6: when an explicit frame `f` is supplied and the animation index is in
sampling range (`len ≠ 0` and `index < len - 1`), every returning `animate`
call returns exactly frame `f`, and `get_frame_by_time` is not consulted:
two external-function records agreeing on everything except `getFrameByTime`
yield identical results. -/
theorem animate_explicit_frame (ext₁ ext₂ : ExternalFns) (a : Armature)
    (tex : Texture2D) (idx : Nat) (time : Option ℚ) (sl sr : Bool)
    (o : AnimOptions) (f : Int)
    (hf : o.frame = some f)
    (h0 : a.animations.length ≠ 0) (hidx : idx < a.animations.length - 1)
    (hsk : ext₁.skAnimate = ext₂.skAnimate)
    (hin : ext₁.inheritance = ext₂.inheritance)
    (hik : ext₁.inverseKinematics = ext₂.inverseKinematics) :
    (∀ r, animate ext₁ a tex idx time sl sr (some o) = some r → r.2.2 = f) ∧
    animate ext₁ a tex idx time sl sr (some o) =
      animate ext₂ a tex idx time sl sr (some o) := by
  have ho : effectiveOptions time (some o) = o :=
    effectiveOptions_frame_some time o f hf
  have hs₁ := sampleStep_explicit_frame ext₁ a idx time o sl f hf ⟨h0, hidx⟩
  have hs₂ := sampleStep_explicit_frame ext₂ a idx time o sl f hf ⟨h0, hidx⟩
  constructor
  · intro r hr
    obtain ⟨p0, na, fr, hs, hr'⟩ :=
      animate_some_shape ext₁ a tex idx time sl sr (some o) r hr
    rw [ho, hs₁] at hs
    simp only [Option.some.injEq, Prod.mk.injEq] at hs
    obtain ⟨-, -, hfr⟩ := hs
    rw [hr']
    exact hfr.symm
  · simp only [animate, ho, hs₁, hs₂, composeProps, hsk, hin, hik]

/-- Witness for C6: `extId` and `extAlt` differ only in `getFrameByTime`;
the two-animation armature is sampled at index 0 with explicit frame 9. -/
theorem animate_explicit_frame_witness :
    (∀ r, animate extId wArm2 Texture2D.empty 0 none true false (some wOpts9) =
        some r → r.2.2 = 9) ∧
    animate extId wArm2 Texture2D.empty 0 none true false (some wOpts9) =
      animate extAlt wArm2 Texture2D.empty 0 none true false (some wOpts9) :=
  animate_explicit_frame extId extAlt wArm2 Texture2D.empty 0 none true false
    wOpts9 9 rfl (by decide) (by decide) rfl rfl rfl

/-- C7: when the file at `zip_path` does not exist (`fs::exists` returns
`Ok(false)`), `load_skelform_armature` returns the default zero-bone
armature together with an empty texture, rather than crashing. -/
theorem load_missing_file (env : LoadEnv) (p : String)
    (h : env.fsExists p = some false) :
    load_skelform_armature env p = some (Armature.default, Texture2D.empty) ∧
    Armature.default.bones = [] := by
  unfold load_skelform_armature
  rw [h]
  exact ⟨rfl, rfl⟩

/-- Witness for C7: a concrete environment in which the file is absent. -/
theorem load_missing_file_witness :
    load_skelform_armature wEnv "missing.zip" =
      some (Armature.default, Texture2D.empty) ∧
    Armature.default.bones = [] :=
  load_missing_file wEnv "missing.zip" rfl

/-- C8, the code evaluated at the failing input: `create_mesh` emits the
raw authored UV, not the atlas-sub-rectangle-mapped UV the spec requires.
For a vertex with authored `uv = (1/2, 1/2)` and a `(0,0)`-offset `64 × 64`
sub-rectangle inside a `128 × 128` atlas, the emitted UV is `(1/2, 1/2)`
while the spec mapping `specAtlasUV` gives `(1/4, 1/4) ≠ (1/2, 1/2)` (the
source computes the `lt`/`rb` bounds but never uses them). -/
theorem create_mesh_emits_raw_uv :
    ((create_mesh meshBone meshTex atlasTex).vertices.map fun v => (v.u, v.v)) =
      [((1 : ℚ) / 2, (1 : ℚ) / 2)] ∧
    specAtlasUV meshTex atlasTex ⟨1 / 2, 1 / 2⟩ = ⟨1 / 4, 1 / 4⟩ ∧
    ¬ ((1 : ℚ) / 2 = 1 / 4) := by
  refine ⟨rfl, ?_, ?_⟩
  · simp only [specAtlasUV, meshTex, atlasTex]
    norm_num
  · norm_num

/-- C9 counterexample: a prop whose texture resolution fails is not skipped.
The single prop has a nonempty `style_idxs` while the armature's style list
is empty, and `draw_props` panics (`none`) on the out-of-bounds `styles[0]`
instead of producing no draw call. -/
theorem draw_props_panics_counterexample :
    draw_props [noStyleBone] noStyleArm Texture2D.empty = none := by
  decide

/-- C9 (amended): `draw_props` skips exactly the props whose own
`style_idxs` list is empty (they contribute no draw call and no panic);
a prop with a nonempty `style_idxs` whose texture resolution fails —
the armature's style list empty, or `tex_idx` (cast `as usize`) out of
range of the first style's texture list — makes `draw_props` panic
(index out of bounds) rather than being skipped. -/
theorem draw_props_skip_or_panic (a : Armature) (tex : Texture2D) :
    (∀ p rest, p.style_idxs = [] →
        draw_props (p :: rest) a tex = draw_props rest a tex) ∧
    (∀ p rest, p.style_idxs ≠ [] → a.styles = [] →
        draw_props (p :: rest) a tex = none) ∧
    (∀ p rest s0, p.style_idxs ≠ [] → a.styles[0]? = some s0 →
        s0.textures[usizeOfInt p.tex_idx]? = none →
        draw_props (p :: rest) a tex = none) := by
  refine ⟨?_, ?_, ?_⟩
  · intro p rest hp
    simp [draw_props, hp]
  · intro p rest hp hs
    have hl : p.style_idxs.length ≠ 0 := by
      intro h0
      exact hp (List.length_eq_zero.mp h0)
    simp [draw_props, hl, hs]
  · intro p rest s0 hp h0 ht
    have hl : p.style_idxs.length ≠ 0 := by
      intro hz
      exact hp (List.length_eq_zero.mp hz)
    simp [draw_props, hl, h0, ht]

/-- Witness for C9 (amended): all three cases instantiated concretely —
a skipped no-style bone, a panic on an empty style list, and a panic on a
`tex_idx` beyond the first style's (empty) texture list. -/
theorem draw_props_skip_or_panic_witness :
    draw_props [wBone] noStyleArm Texture2D.empty =
      draw_props [] noStyleArm Texture2D.empty ∧
    draw_props [noStyleBone] noStyleArm Texture2D.empty = none ∧
    draw_props [noStyleBone] smallStyleArm Texture2D.empty = none :=
  ⟨(draw_props_skip_or_panic noStyleArm Texture2D.empty).1 wBone [] rfl,
   (draw_props_skip_or_panic noStyleArm Texture2D.empty).2.1 noStyleBone []
     (by decide) rfl,
   (draw_props_skip_or_panic smallStyleArm Texture2D.empty).2.2 noStyleBone []
     smallStyle (by decide) rfl (by decide)⟩

/-- C10: the `last_anim_idx` and `last_anim_frame` fields of `AnimOptions`
have no effect on `animate`: two calls identical except in those two fields
return identical results (no blending with the previous animation is
performed). -/
theorem animate_ignores_blend_fields (ext : ExternalFns) (a : Armature)
    (tex : Texture2D) (idx : Nat) (time : Option ℚ) (sl sr : Bool)
    (o₁ o₂ : AnimOptions)
    (hs : o₁.speed = o₂.speed) (hp : o₁.pos_offset = o₂.pos_offset)
    (hc : o₁.scale_factor = o₂.scale_factor) (hf : o₁.frame = o₂.frame) :
    animate ext a tex idx time sl sr (some o₁) =
      animate ext a tex idx time sl sr (some o₂) := by
  obtain ⟨s₁, p₁, c₁, f₁, l₁, m₁⟩ := o₁
  obtain ⟨s₂, p₂, c₂, f₂, l₂, m₂⟩ := o₂
  simp only at hs hp hc hf
  subst hs hp hc hf
  rcases time with _ | t <;> rcases f₁ with _ | fv <;>
    simp [animate, sampleStep, effectiveOptions, applyOptions, composeProps]

/-- Witness for C10: the default options against options differing only in
the two blend-bookkeeping fields. -/
theorem animate_ignores_blend_fields_witness :
    animate extId wArm2 Texture2D.empty 0 (some 2) true false
        (some AnimOptions.default) =
      animate extId wArm2 Texture2D.empty 0 (some 2) true false (some wOptsA) :=
  animate_ignores_blend_fields extId wArm2 Texture2D.empty 0 (some 2) true false
    AnimOptions.default wOptsA rfl rfl rfl rfl

end RSkel
